import Mathlib

/-!
# Verification of the Catastro lookup core (`src/catastro_mcp.py`)

A shallow embedding of the pure core of the Catastro MCP server: the
nearest-number selection, the fallback engine's candidate sorting, the query
router, the error classifier, the record extractors and the reference
assembly.  Network transport, logging and the MCP host layer are external
collaborators and are modelled only up to the point where a request would be
dispatched.

Conventions:
* Python `str` is Lean `String`; `Optional[str]` is `Option String`.
* An `xml.etree` element is a rose tree (`XmlElem`); `elem.text` is
  `Option String` (`None` for an empty element).
* Python dicts built field by field become association lists
  `List (String × JVal)` in insertion order, mirroring `json.dumps` output.
* Machine floats never matter here: the service's comma-decimal texts are
  modelled as exact rationals (`Rat`), and `float()` is modelled on the
  finite decimal grammar (plus the `inf`/`nan` spellings) over `Rat`.
-/

namespace Catastro

/-! ## Python primitives -/

/-- Truthiness of a Python `Optional[str]`: `None` and `""` are falsy. -/
def pyTruthy : Option String → Bool
  | none => false
  | some s => s ≠ ""

/-- The ASCII whitespace characters stripped by Python's `int()`/`float()`
conversions (the model is restricted to ASCII whitespace). -/
def pyIsSpace (c : Char) : Bool :=
  c = ' ' || c = '\t' || c = '\n' || c = '\x0d' || c = '\x0b' || c = '\x0c'

/-- Strip leading and trailing whitespace from a character list. -/
def stripWS (cs : List Char) : List Char :=
  ((cs.dropWhile pyIsSpace).reverse.dropWhile pyIsSpace).reverse

/-- Consume a run of decimal digits, allowing a single `_` between two
digits (Python numeric-literal rule).  Accumulates the value and the number
of digits consumed, and returns the unconsumed remainder. -/
def digRun (acc cnt : Nat) : List Char → Nat × Nat × List Char
  | [] => (acc, cnt, [])
  | [c] =>
    if c.isDigit then (10 * acc + (c.toNat - 48), cnt + 1, [])
    else (acc, cnt, [c])
  | c :: c2 :: cs =>
    if c.isDigit then digRun (10 * acc + (c.toNat - 48)) (cnt + 1) (c2 :: cs)
    else if c = '_' && c2.isDigit then digRun (10 * acc + (c2.toNat - 48)) (cnt + 1) cs
    else (acc, cnt, c :: c2 :: cs)

/-- Parse a digit run that must begin with a digit (underscores may not
lead). -/
def parseDigits (cs : List Char) : Option (Nat × Nat × List Char) :=
  match cs with
  | c :: rest => if c.isDigit then some (digRun (c.toNat - 48) 1 rest) else none
  | [] => none

/-- Model of Python's `int(str)`: optional surrounding whitespace, optional
sign, a non-empty digit run (with interior underscores); anything else
raises `ValueError`, modelled as `none`.  Restricted to ASCII digits. -/
def pyInt? (s : String) : Option Int :=
  let cs := stripWS s.toList
  let signed : Int × List Char :=
    match cs with
    | '+' :: r => (1, r)
    | '-' :: r => (-1, r)
    | r => (1, r)
  match parseDigits signed.2 with
  | some (v, _, []) => some (signed.1 * (v : Int))
  | _ => none

/-- ASCII lower-casing, used to recognise the `inf`/`nan` spellings. -/
def asciiLower (c : Char) : Char :=
  if 'A' ≤ c && c ≤ 'Z' then Char.ofNat (c.toNat + 32) else c

/-- The digits of a finite Python `float` literal: sign, integer-part value,
fraction-part value and digit count, and exponent.  Kept unevaluated so that
parsing is decidable; `DecRepr.val` gives the exact rational it denotes. -/
structure DecRepr where
  neg : Bool
  ip : Nat
  fp : Nat
  fpCnt : Nat
  exp : Int
deriving DecidableEq, Repr

/-- The exact rational denoted by a finite float literal. -/
def DecRepr.val (d : DecRepr) : Rat :=
  let mant : Rat := (d.ip : Rat) + (d.fp : Rat) / (10 : Rat) ^ d.fpCnt
  let scaled : Rat :=
    if 0 ≤ d.exp then mant * (10 : Rat) ^ d.exp.toNat else mant / (10 : Rat) ^ (-d.exp).toNat
  if d.neg then -scaled else scaled

/-- The value of a Python `float`, with the exact rational standing in for
the machine double of the reference implementation. -/
inductive PyFloat where
  | finite (d : DecRepr)
  | inf
  | neginf
  | nan
deriving DecidableEq, Repr

/-- Parse an exponent suffix (`e`/`E`, optional sign, digit run) against the
remainder of the mantissa; `none` when the remainder is not a valid (possibly
empty) exponent. -/
def parseExp (rest : List Char) : Option Int :=
  match rest with
  | [] => some 0
  | e :: r =>
    if e = 'e' || e = 'E' then
      let signed : Int × List Char :=
        match r with
        | '+' :: rr => (1, rr)
        | '-' :: rr => (-1, rr)
        | rr => (1, rr)
      match parseDigits signed.2 with
      | some (v, _, []) => some (signed.1 * (v : Int))
      | _ => none
    else none

/-- Model of Python's `float(str)`: optional whitespace and sign, then the
`inf`/`infinity`/`nan` spellings or a decimal mantissa with optional
exponent.  The finite values are exact rationals. -/
def pyFloat? (s : String) : Option PyFloat :=
  let cs := stripWS s.toList
  let signed : Bool × List Char :=
    match cs with
    | '+' :: r => (false, r)
    | '-' :: r => (true, r)
    | r => (false, r)
  let neg := signed.1
  let body := signed.2
  let low := body.map asciiLower
  if low = ['i','n','f'] || low = ['i','n','f','i','n','i','t','y'] then
    some (if neg then .neginf else .inf)
  else if low = ['n','a','n'] then
    some .nan
  else
    let ip : Nat × Nat × List Char :=
      match body with
      | c :: r => if c.isDigit then digRun (c.toNat - 48) 1 r else (0, 0, body)
      | [] => (0, 0, body)
    let afterDot : List Char :=
      match ip.2.2 with
      | '.' :: r => r
      | r => r
    let hasDot : Bool :=
      match ip.2.2 with
      | '.' :: _ => true
      | _ => false
    let fp : Nat × Nat × List Char :=
      if hasDot then
        match afterDot with
        | c :: r => if c.isDigit then digRun (c.toNat - 48) 1 r else (0, 0, afterDot)
        | [] => (0, 0, afterDot)
      else (0, 0, ip.2.2)
    if ip.2.1 + fp.2.1 = 0 then none
    else
      match parseExp fp.2.2 with
      | none => none
      | some e => some (.finite ⟨neg, ip.1, fp.1, fp.2.1, e⟩)

/-- `text.replace(',', '.')` of the source: a single-character replacement,
modelled as a character map. -/
def comaAPunto (s : String) : String :=
  String.mk (s.toList.map (fun c => if c = ',' then '.' else c))

/-- The source's comma-decimal normalisation step:
`float(text.replace(',', '.'))`. -/
def normalizarDecimal (s : String) : Option PyFloat :=
  pyFloat? (comaAPunto s)

/-- Upper-case table: ASCII letters plus the Latin accented letters that can
occur in the service's error phrases (including the mojibake `š`).  Python's
`str.upper()` agrees with this table on every character it lists and maps no
character at all to a lowercase letter. -/
def tablaMayusculas : List (Char × Char) :=
  [('a','A'), ('b','B'), ('c','C'), ('d','D'), ('e','E'), ('f','F'), ('g','G'),
   ('h','H'), ('i','I'), ('j','J'), ('k','K'), ('l','L'), ('m','M'), ('n','N'),
   ('o','O'), ('p','P'), ('q','Q'), ('r','R'), ('s','S'), ('t','T'), ('u','U'),
   ('v','V'), ('w','W'), ('x','X'), ('y','Y'), ('z','Z'),
   ('á','Á'), ('é','É'), ('í','Í'), ('ó','Ó'), ('ú','Ú'),
   ('à','À'), ('è','È'), ('ì','Ì'), ('ò','Ò'), ('ù','Ù'),
   ('ã','Ã'), ('õ','Õ'), ('ñ','Ñ'), ('ü','Ü'), ('ç','Ç'), ('š','Š')]

/-- Model of Python's `str.upper()` on one character, restricted to the
table above; any other character is left unchanged. -/
def pyUpperChar (c : Char) : Char :=
  match tablaMayusculas.find? (fun p => p.1 = c) with
  | some p => p.2
  | none => c

/-- Model of Python's `str.upper()`. -/
def pyUpper (s : String) : String :=
  String.mk (s.toList.map pyUpperChar)

/-- `needle` is a prefix of `hay` (over characters). -/
def esPrefijo : List Char → List Char → Bool
  | [], _ => true
  | _ :: _, [] => false
  | a :: as, b :: bs => a = b && esPrefijo as bs

/-- `needle` occurs as a contiguous substring of `hay`. -/
def esInfijo (needle : List Char) : List Char → Bool
  | [] => esPrefijo needle []
  | b :: bs => esPrefijo needle (b :: bs) || esInfijo needle bs

/-- Python's `needle in hay` test on strings. -/
def pyIn (needle hay : String) : Bool :=
  esInfijo needle.toList hay.toList

example : pyInt? "42" = some 42 := by decide
example : pyInt? " -7 " = some (-7) := by decide
example : pyInt? "abc" = none := by decide
example : pyInt? "1_0" = some 10 := by decide
example : pyInt? "1__0" = none := by decide
example : pyInt? "" = none := by decide
example : pyInt? "0" = some 0 := by decide
example : pyFloat? "45.5" = some (.finite ⟨false, 45, 5, 1, 0⟩) := by decide
example : normalizarDecimal "45,5" = some (.finite ⟨false, 45, 5, 1, 0⟩) := by decide
example : DecRepr.val ⟨false, 45, 5, 1, 0⟩ = (45.5 : Rat) := by norm_num [DecRepr.val]
example : pyFloat? "1e3" = some (.finite ⟨false, 1, 0, 0, 3⟩) := by decide
example : pyFloat? "inf" = some .inf := by decide
example : pyFloat? "1." = some (.finite ⟨false, 1, 0, 0, 0⟩) := by decide
example : pyFloat? ".5" = some (.finite ⟨false, 0, 5, 1, 0⟩) := by decide
example : pyFloat? "." = none := by decide
example : pyFloat? "1e" = none := by decide
example : normalizarDecimal "abc" = none := by decide
example : pyUpper "número no existe" = "NÚMERO NO EXISTE" := by decide
example : pyIn "NO" "BUENO" = true := by decide
example : pyIn "NO" "SI" = false := by decide

/-! ## Nearest-number selection (`buscar_numero_cercano`, lines 34–54)

The helper sorts the available numbers ascending (`sorted(...)`), starts
from the first and keeps the strictly better candidate while scanning. -/

/-- The scan of `buscar_numero_cercano`: `mejor`/`diferencia_minima` are the
running best candidate and its absolute difference from the target. -/
def mejorLoop (t : Int) : List Int → Int → Nat → Int
  | [], mejor, _ => mejor
  | n :: ns, mejor, difMin =>
    if (t - n).natAbs < difMin then mejorLoop t ns n ((t - n).natAbs)
    else mejorLoop t ns mejor difMin

/-- `buscar_numero_cercano(numero_buscado, numeros_disponibles)`: `None` for
an empty list, otherwise sort ascending and keep the first strictly-closer
number.  `sorted` is modelled by `List.insertionSort (· ≤ ·)`. -/
def buscar_numero_cercano (numeroBuscado : Int) (numerosDisponibles : List Int) : Option Int :=
  if numerosDisponibles.isEmpty then none
  else
    match List.insertionSort (· ≤ ·) numerosDisponibles with
    | [] => none
    | mejor :: resto =>
      some (mejorLoop numeroBuscado (mejor :: resto) mejor ((numeroBuscado - mejor).natAbs))

/-! ## Fallback engine candidate selection (lines 489–510)

`numeros_disponibles.sort(key=lambda x: abs(x["numero"] - numero_buscado))`
followed by `numeros_disponibles[0]`.  Python's `list.sort` is a stable sort
by the key; a stable sort is extensionally unique, so the stable
`List.insertionSort` on the key order is a faithful model. -/

/-- One entry of the fallback engine's `numeros_disponibles` list:
`{"numero": ..., "referencia": ...}`. -/
structure Candidato where
  numero : Int
  referencia : String
deriving DecidableEq, Repr

/-- The sort key `abs(x["numero"] - numero_buscado)`. -/
def claveDiferencia (numeroBuscado : Int) (c : Candidato) : Nat :=
  (c.numero - numeroBuscado).natAbs

/-- The engine's in-place `sort(key=...)`, modelled by the stable insertion
sort on the key order. -/
def ordenarPorDiferencia (numeroBuscado : Int) (cands : List Candidato) : List Candidato :=
  List.insertionSort
    (fun a b => claveDiferencia numeroBuscado a ≤ claveDiferencia numeroBuscado b) cands

/-- `numeros_disponibles[0]` after the in-place sort: the candidate the
fallback engine resolves to. -/
def numeroCercano (numeroBuscado : Int) (cands : List Candidato) : Option Candidato :=
  (ordenarPorDiferencia numeroBuscado cands).head?

/-- Modelled from the spec's words: "sort candidates by
`|candidate.number − requested.number|` ascending (ties broken by original
enumeration order — stable sort); select the first (minimum difference)",
i.e. the first list element achieving the minimal key. -/
def primeroMinimo {α : Type} (key : α → Nat) : List α → Option α
  | [] => none
  | a :: as =>
    match primeroMinimo key as with
    | none => some a
    | some b => if key a ≤ key b then some a else some b

theorem primeroMinimo_mem {α : Type} (key : α → Nat) {l : List α} {a : α}
    (h : primeroMinimo key l = some a) : a ∈ l := by
  induction l with
  | nil => simp [primeroMinimo] at h
  | cons x xs ih =>
    simp only [primeroMinimo] at h
    cases hx : primeroMinimo key xs with
    | none => rw [hx] at h; simp at h; simp [h]
    | some b =>
      rw [hx] at h
      by_cases hk : key x ≤ key b
      · simp [hk] at h; simp [h]
      · simp [hk] at h
        exact List.mem_cons_of_mem _ (ih (h ▸ hx))

theorem primeroMinimo_eq_none {α : Type} (key : α → Nat) {l : List α} :
    primeroMinimo key l = none ↔ l = [] := by
  cases l with
  | nil => simp [primeroMinimo]
  | cons x xs =>
    simp only [primeroMinimo]
    cases hx : primeroMinimo key xs with
    | none => simp
    | some b => by_cases hk : key x ≤ key b <;> simp [hk]

theorem primeroMinimo_min {α : Type} (key : α → Nat) :
    ∀ (l : List α) (a : α), primeroMinimo key l = some a → ∀ b ∈ l, key a ≤ key b := by
  intro l
  induction l with
  | nil => intro a h; simp [primeroMinimo] at h
  | cons x xs ih =>
    intro a h b hb
    simp only [primeroMinimo] at h
    cases hx : primeroMinimo key xs with
    | none =>
      rw [hx] at h
      have hxs : xs = [] := (primeroMinimo_eq_none key).mp hx
      subst hxs
      have hxa : x = a := by simpa using h
      subst hxa
      rcases List.mem_singleton.mp hb with rfl
      exact le_refl _
    | some c =>
      rw [hx] at h
      have hmin := ih c hx
      by_cases hk : key x ≤ key c
      · simp only [if_pos hk] at h
        have hxa : x = a := by simpa using h
        subst hxa
        rcases List.mem_cons.mp hb with rfl | hbx
        · exact le_refl _
        · exact hk.trans (hmin b hbx)
      · simp only [if_neg hk] at h
        have hca : c = a := by simpa using h
        subst hca
        rcases List.mem_cons.mp hb with rfl | hbx
        · exact le_of_not_le hk
        · exact hmin b hbx

theorem primeroMinimo_isSome {α : Type} (key : α → Nat) {l : List α} (h : l ≠ []) :
    ∃ a, primeroMinimo key l = some a := by
  cases l with
  | nil => exact absurd rfl h
  | cons x xs =>
    simp only [primeroMinimo]
    cases hx : primeroMinimo key xs with
    | none => exact ⟨x, rfl⟩
    | some b => by_cases hk : key x ≤ key b <;> simp [hk]

/-- The head of the stable key-sort is the first element achieving the
minimal key. -/
theorem head_insertionSort_eq_primeroMinimo {α : Type} (key : α → Nat) (l : List α) :
    (List.insertionSort (fun a b => key a ≤ key b) l).head? = primeroMinimo key l := by
  induction l with
  | nil => simp [primeroMinimo]
  | cons x xs ih =>
    rw [List.insertionSort]
    cases hx : List.insertionSort (fun a b => key a ≤ key b) xs with
    | nil =>
      rw [hx] at ih
      simp only [primeroMinimo, List.head?] at ih ⊢
      rw [← ih]
      simp [List.orderedInsert]
    | cons y ys =>
      rw [hx] at ih
      simp only [List.head?] at ih
      simp only [primeroMinimo, ← ih]
      by_cases hk : key x ≤ key y <;> simp [List.orderedInsert, hk]

theorem mejorLoop_mem (t : Int) : ∀ (l : List Int) (mejor : Int) (d : Nat),
    mejorLoop t l mejor d = mejor ∨ mejorLoop t l mejor d ∈ l := by
  intro l
  induction l with
  | nil => intro mejor d; left; rfl
  | cons n ns ih =>
    intro mejor d
    simp only [mejorLoop]
    by_cases h : (t - n).natAbs < d
    · simp only [if_pos h]
      rcases ih n ((t - n).natAbs) with h1 | h1
      · right; rw [h1]; exact List.mem_cons_self _ _
      · right; exact List.mem_cons_of_mem _ h1
    · simp only [if_neg h]
      rcases ih mejor d with h1 | h1
      · left; exact h1
      · right; exact List.mem_cons_of_mem _ h1

theorem mejorLoop_target (t : Int) : ∀ (l : List Int) (mejor : Int),
    (t ∈ l ∨ mejor = t) → mejorLoop t l mejor ((t - mejor).natAbs) = t := by
  intro l
  induction l with
  | nil =>
    intro mejor h
    rcases h with h | h
    · simp at h
    · simp [mejorLoop, h]
  | cons n ns ih =>
    intro mejor h
    simp only [mejorLoop]
    by_cases hlt : (t - n).natAbs < (t - mejor).natAbs
    · rw [if_pos hlt]
      apply ih
      rcases h with hmem | hEq
      · rcases List.mem_cons.mp hmem with rfl | hns
        · right; rfl
        · left; exact hns
      · exfalso
        rw [hEq, sub_self, Int.natAbs_zero] at hlt
        exact Nat.not_lt_zero _ hlt
    · rw [if_neg hlt]
      apply ih
      rcases h with hmem | hEq
      · rcases List.mem_cons.mp hmem with rfl | hns
        · right
          rw [sub_self, Int.natAbs_zero] at hlt
          have h0 : (t - mejor).natAbs = 0 := Nat.eq_zero_of_not_pos hlt
          exact (sub_eq_zero.mp (Int.natAbs_eq_zero.mp h0)).symm
        · left; exact hns
      · right; exact hEq

/-- C1: for every non-empty list of integers and every target, the
nearest-number selection (`buscar_numero_cercano`, and likewise the fallback
engine's sorted-candidate selection `numeroCercano`) is a deterministic
function that returns an element of the list, and when the target itself is
in the list it returns the target (so the reported difference is 0). -/
theorem claim_C1 (t : Int) (l : List Int) (cands : List Candidato)
    (hl : l ≠ []) (hc : cands ≠ []) :
    (∃ m, buscar_numero_cercano t l = some m ∧ m ∈ l ∧ (t ∈ l → m = t ∧ (t - m).natAbs = 0)) ∧
    (∃ c, numeroCercano t cands = some c ∧ c ∈ cands ∧
      ((∃ d ∈ cands, d.numero = t) → c.numero = t ∧ (t - c.numero).natAbs = 0)) := by
  constructor
  · have hne : l.isEmpty = false := by
      cases l with
      | nil => exact absurd rfl hl
      | cons x xs => rfl
    have hperm : List.Perm (List.insertionSort (· ≤ ·) l) l := List.perm_insertionSort _ l
    unfold buscar_numero_cercano
    rw [hne]
    simp only [Bool.false_eq_true, if_false]
    cases hs : List.insertionSort (· ≤ ·) l with
    | nil =>
      exfalso
      rw [hs] at hperm
      exact hl (List.Perm.nil_eq hperm).symm
    | cons mejor resto =>
      refine ⟨_, rfl, ?_, ?_⟩
      · rw [hs] at hperm
        rcases mejorLoop_mem t (mejor :: resto) mejor ((t - mejor).natAbs) with h1 | h1
        · have hmem : mejorLoop t (mejor :: resto) mejor ((t - mejor).natAbs) ∈ mejor :: resto := by
            rw [h1]; exact List.mem_cons_self _ _
          exact hperm.mem_iff.mp hmem
        · exact hperm.mem_iff.mp h1
      · intro htl
        have hts : t ∈ mejor :: resto := by
          rw [hs] at hperm
          exact hperm.mem_iff.mpr htl
        have := mejorLoop_target t (mejor :: resto) mejor (Or.inl hts)
        exact ⟨this, by rw [this, sub_self, Int.natAbs_zero]⟩
  · have hhead : numeroCercano t cands = primeroMinimo (claveDiferencia t) cands := by
      unfold numeroCercano ordenarPorDiferencia
      exact head_insertionSort_eq_primeroMinimo (claveDiferencia t) cands
    rcases primeroMinimo_isSome (claveDiferencia t) hc with ⟨c, hcs⟩
    refine ⟨c, by rw [hhead, hcs], primeroMinimo_mem _ hcs, ?_⟩
    rintro ⟨d, hd, hdt⟩
    have hmin := primeroMinimo_min (claveDiferencia t) cands c hcs d hd
    have hkd : claveDiferencia t d = 0 := by
      simp [claveDiferencia, hdt]
    rw [hkd, Nat.le_zero] at hmin
    have hct : c.numero = t := sub_eq_zero.mp (Int.natAbs_eq_zero.mp hmin)
    exact ⟨hct, by rw [hct, sub_self, Int.natAbs_zero]⟩

theorem claim_C1_witness :
    (∃ m, buscar_numero_cercano 7 [3, 9, 7] = some m ∧ m ∈ [3, 9, 7] ∧
      ((7 : Int) ∈ [(3 : Int), 9, 7] → m = 7 ∧ ((7 : Int) - m).natAbs = 0)) ∧
    (∃ c, numeroCercano 7 [⟨9, "r9"⟩] = some c ∧ c ∈ [(⟨9, "r9"⟩ : Candidato)] ∧
      ((∃ d ∈ [(⟨9, "r9"⟩ : Candidato)], d.numero = 7) →
        c.numero = 7 ∧ ((7 : Int) - c.numero).natAbs = 0)) :=
  claim_C1 7 [3, 9, 7] [⟨9, "r9"⟩] (by decide) (by simp)

/-- C2: the fallback engine's choice among candidate numbers, the head of the
stable sort by absolute difference, is exactly the first candidate of the
enumeration endpoint's original order achieving the minimal difference — so
equidistant ties go to the candidate appearing first in enumeration order. -/
theorem claim_C2 (t : Int) (cands : List Candidato) :
    numeroCercano t cands = primeroMinimo (claveDiferencia t) cands := by
  unfold numeroCercano ordenarPorDiferencia
  exact head_insertionSort_eq_primeroMinimo (claveDiferencia t) cands

/-! ## XML tree and JSON value models

An `xml.etree.ElementTree.Element` after the namespace-stripping step: a
tag, an optional text (an empty element has `text = None`), and a list of
children.  `find("tag")` matches direct children; `find(".//tag")` and
`findall(".//tag")` match descendants (excluding the element itself) in
document order. -/

inductive XmlElem where
  | mk (tag : String) (text : Option String) (children : List XmlElem)

def XmlElem.tag : XmlElem → String
  | .mk t _ _ => t

def XmlElem.text : XmlElem → Option String
  | .mk _ x _ => x

def XmlElem.children : XmlElem → List XmlElem
  | .mk _ _ cs => cs

mutual

/-- First match for `tag` in the subtree rooted at `e`, `e` included,
in document order. -/
def findDescE (tag : String) (e : XmlElem) : Option XmlElem :=
  match e with
  | .mk t x cs => if t = tag then some (.mk t x cs) else findDescL tag cs

/-- First match for `tag` in a forest, in document order. -/
def findDescL (tag : String) : List XmlElem → Option XmlElem
  | [] => none
  | c :: cs =>
    match findDescE tag c with
    | some r => some r
    | none => findDescL tag cs

end

/-- `e.find(".//tag")`: first matching descendant of `e`. -/
def XmlElem.findDesc (e : XmlElem) (tag : String) : Option XmlElem :=
  findDescL tag e.children

mutual

/-- All matches for `tag` in the subtree rooted at `e`, `e` included,
in document order. -/
def findAllE (tag : String) (e : XmlElem) : List XmlElem :=
  match e with
  | .mk t x cs => (if t = tag then [XmlElem.mk t x cs] else []) ++ findAllL tag cs

/-- All matches for `tag` in a forest, in document order. -/
def findAllL (tag : String) : List XmlElem → List XmlElem
  | [] => []
  | c :: cs => findAllE tag c ++ findAllL tag cs

end

/-- `e.findall(".//tag")`: all matching descendants of `e`. -/
def XmlElem.findAllDesc (e : XmlElem) (tag : String) : List XmlElem :=
  findAllL tag e.children

/-- `e.find("tag")`: first direct child with the given tag. -/
def XmlElem.findChild (e : XmlElem) (tag : String) : Option XmlElem :=
  e.children.find? (fun c => c.tag = tag)

/-- `elem.text` of a found element, `None` when the element was not found
(the source guards with `x is not None`); `textoDe (find ...)` mirrors
`x.text if x is not None else None`. -/
def textoDe : Option XmlElem → Option String
  | none => none
  | some e => e.text

/-- Python truthiness of `x is not None and x.text` for a found element. -/
def tieneTexto (o : Option XmlElem) : Bool :=
  pyTruthy (textoDe o)

/-- A JSON value as built by the source's dict construction and serialised
by `json.dumps`: objects keep insertion order.  Floats are `PyFloat`
representations (exact, no machine rounding). -/
inductive JVal where
  | null
  | s (str : String)
  | i (n : Int)
  | f (x : PyFloat)
  | b (v : Bool)
  | obj (fields : List (String × JVal))
  | arr (elems : List JVal)

/-- A Python dict in insertion order. -/
abbrev Dict := List (String × JVal)

/-! ## Error classification (lines 798–819) and the fallback trigger (line 463)

The router classifies a service error by case-insensitive substring match of
the description against fixed Spanish phrases; the street and number
branches also try a mojibake-accented spelling (`"VÃA…"`, `"NÃšMERO…"`,
written here with explicit escapes: U+00C3 and U+0161 are the literal
characters of the source).  The smart search's fallback trigger instead
matches `"NUMERO NO EXISTE"` or the *correctly* accented `"NÚMERO NO
EXISTE"` (U+00DA). -/

/-- The branch of `consulta_datos_catastro`'s error classification chain
that matches the description (deciding which candidate list is attached). -/
inductive ClaseError where
  | provincia
  | municipio
  | via
  | numero
  | otra
deriving DecidableEq, Repr

/-- The `if/elif` classification chain of `consulta_datos_catastro`
(lines 798–819). -/
def clasificarError (desc : String) : ClaseError :=
  if pyIn "PROVINCIA NO EXISTE" (pyUpper desc) then .provincia
  else if pyIn "MUNICIPIO NO EXISTE" (pyUpper desc) then .municipio
  else if pyIn "VIA NO EXISTE" (pyUpper desc) || pyIn "VÃA NO EXISTE" (pyUpper desc) then
    .via
  else if pyIn "NUMERO NO EXISTE" (pyUpper desc)
      || pyIn "NÃšMERO NO EXISTE" (pyUpper desc) then
    .numero
  else .otra

/-- The smart search's number-fallback trigger (line 463 of
`buscar_inmueble_inteligente`). -/
def disparaFallback (desc : String) : Bool :=
  pyIn "NUMERO NO EXISTE" (pyUpper desc) || pyIn "NÚMERO NO EXISTE" (pyUpper desc)

theorem esPrefijo_mem : ∀ (n h : List Char), esPrefijo n h = true → ∀ c ∈ n, c ∈ h := by
  intro n
  induction n with
  | nil => intro h _ c hc; simp at hc
  | cons a as ih =>
    intro h hp c hc
    cases h with
    | nil => simp [esPrefijo] at hp
    | cons b bs =>
      simp only [esPrefijo, Bool.and_eq_true, decide_eq_true_eq] at hp
      obtain ⟨hab, hrest⟩ := hp
      rcases List.mem_cons.mp hc with rfl | hcs
      · rw [hab]; exact List.mem_cons_self _ _
      · exact List.mem_cons_of_mem _ (ih bs hrest c hcs)

theorem esInfijo_mem : ∀ (h n : List Char), esInfijo n h = true → ∀ c ∈ n, c ∈ h := by
  intro h
  induction h with
  | nil =>
    intro n hinf c hc
    cases n with
    | nil => simp at hc
    | cons a as => simp [esInfijo, esPrefijo] at hinf
  | cons b bs ih =>
    intro n hinf c hc
    simp only [esInfijo, Bool.or_eq_true] at hinf
    rcases hinf with hp | hi
    · exact esPrefijo_mem n (b :: bs) hp c hc
    · exact List.mem_cons_of_mem _ (ih n hi c hc)

/-- No character upper-cases to the lowercase mojibake letter U+0161. -/
theorem pyUpperChar_ne_s (c : Char) : pyUpperChar c ≠ 'š' := by
  unfold pyUpperChar
  cases h : tablaMayusculas.find? (fun p => p.1 = c) with
  | none =>
    intro hc
    have h2 := List.find?_eq_none.mp h ('š', 'Š') (by decide)
    simp only [decide_eq_true_eq] at h2
    exact h2 hc.symm
  | some p =>
    have hmem := List.mem_of_find?_eq_some h
    have hall : ∀ q ∈ tablaMayusculas, q.2 ≠ 'š' := by decide
    exact hall p hmem

/-- The upper-cased description never contains U+0161. -/
theorem pyUpper_sin_s (s : String) : 'š' ∉ (pyUpper s).toList := by
  intro hmem
  have heq : (pyUpper s).toList = s.toList.map pyUpperChar := rfl
  rw [heq] at hmem
  rcases List.mem_map.mp hmem with ⟨c, _, hc⟩
  exact pyUpperChar_ne_s c hc

/-- The router's mojibake number spelling can never match an upper-cased
description: that branch of the classifier is unsatisfiable. -/
theorem mojibake_numero_nunca (d : String) :
    pyIn "NÃšMERO NO EXISTE" (pyUpper d) = false := by
  cases h : pyIn "NÃšMERO NO EXISTE" (pyUpper d) with
  | false => rfl
  | true =>
    exfalso
    unfold pyIn at h
    have hmem := esInfijo_mem (pyUpper d).toList "NÃšMERO NO EXISTE".toList h
      'š' (by decide)
    exact pyUpper_sin_s d hmem

/-- C8 counterexample: the description "El número no existe" (correctly
accented) triggers the smart search's number fallback, yet the router's
classification — the case-insensitive match against the fixed phrases and
their mojibake fallback spellings — does not classify it as a number error,
so that classification does not decide the fallback trigger. -/
theorem claim_C8_counterexample :
    disparaFallback "El número no existe" = true ∧
    clasificarError "El número no existe" = ClaseError.otra := by
  constructor
  · decide
  · decide

/-- C8 amended: the router classifies by case-insensitive substring match
against the four fixed phrases, with mojibake fallback spellings for street
and number; the number mojibake spelling contains a lowercase U+0161 and so
never matches an upper-cased description.  The smart search's fallback
trigger is a separate check matching "NUMERO NO EXISTE" or the correctly
accented "NÚMERO NO EXISTE"; every description the router classifies as a
number error triggers the fallback, but not conversely (the correctly
accented phrase triggers the fallback while the router classifies it as
unrecognised). -/
theorem claim_C8_amended :
    (∀ d : String, pyIn "NÃšMERO NO EXISTE" (pyUpper d) = false) ∧
    (∀ d : String, clasificarError d = ClaseError.numero → disparaFallback d = true) ∧
    clasificarError "provincia no existe" = ClaseError.provincia ∧
    clasificarError "municipio no existe" = ClaseError.municipio ∧
    clasificarError "vía no existe" = ClaseError.otra ∧
    clasificarError "vãa no existe" = ClaseError.via ∧
    clasificarError "numero no existe" = ClaseError.numero ∧
    disparaFallback "número no existe" = true ∧
    clasificarError "número no existe" = ClaseError.otra := by
  refine ⟨mojibake_numero_nunca, ?_, by decide, by decide, by decide, by decide, by decide,
    by decide, by decide⟩
  intro d h
  unfold clasificarError at h
  by_cases h1 : pyIn "PROVINCIA NO EXISTE" (pyUpper d) = true
  · rw [if_pos h1] at h; cases h
  · rw [if_neg h1] at h
    by_cases h2 : pyIn "MUNICIPIO NO EXISTE" (pyUpper d) = true
    · rw [if_pos h2] at h; cases h
    · rw [if_neg h2] at h
      by_cases h3 : (pyIn "VIA NO EXISTE" (pyUpper d)
          || pyIn "VÃA NO EXISTE" (pyUpper d)) = true
      · rw [if_pos h3] at h; cases h
      · rw [if_neg h3] at h
        by_cases h4 : (pyIn "NUMERO NO EXISTE" (pyUpper d)
            || pyIn "NÃšMERO NO EXISTE" (pyUpper d)) = true
        · rcases Bool.or_eq_true _ _ |>.mp h4 with hplain | hmoji
          · unfold disparaFallback
            rw [hplain]
            rfl
          · rw [mojibake_numero_nunca d] at hmoji; cases hmoji
        · rw [if_neg h4] at h; cases h

theorem claim_C8_amended_witness :
    disparaFallback "NUMERO NO EXISTE" = true :=
  claim_C8_amended.2.1 "NUMERO NO EXISTE" (by decide)

/-! ## Query router (`consulta_datos_catastro`, lines 714–771) -/

/-- A `params` dict as passed to `client.get(url, params=...)`, in insertion
order; a value may be `None` (the code path passes `numero` through even
when it is `None`). -/
abbrev Params := List (String × Option String)

/-- Service endpoints. -/
def BASE_URL : String := "http://ovc.catastro.meh.es/OVCServWeb/OVCWcfCallejero"

def CALLEJERO_URL : String := BASE_URL ++ "/COVCCallejero.svc/rest"

def CODIGOS_URL : String := BASE_URL ++ "/COVCCallejeroCodigos.svc/rest"

/-- `if valor: params[clave] = valor` — append a parameter only when the
optional value is truthy. -/
def agregarSi (clave : String) (valor : Option String) (params : Params) : Params :=
  if pyTruthy valor then params ++ [(clave, valor)] else params

/-- The single lookup path `consulta_datos_catastro` selects before its one
network dispatch: reference lookup, code lookup, denomination lookup, or the
validation error returned before any request is made. -/
inductive Ruta where
  | referencia (url : String) (params : Params)
  | codigos (url : String) (params : Params)
  | denominacion (url : String) (params : Params)
  | errorValidacion (mensaje : String)
deriving DecidableEq, Repr

/-- Whether the selected path reaches the network dispatch (`client.get`):
the three endpoint branches all flow into the single request; the
validation error returns first. -/
def llamaRed : Ruta → Bool
  | .errorValidacion _ => false
  | _ => true

/-- The `if referencia_catastral / elif codigo_provincia / else` chain of
`consulta_datos_catastro`, including each branch's parameter building. -/
def construirRuta
    (provincia municipio tipo_via nombre_via numero bloque escalera planta puerta
     codigo_provincia codigo_municipio codigo_via referencia_catastral : Option String) :
    Ruta :=
  if pyTruthy referencia_catastral then
    let params : Params := [("RefCat", referencia_catastral)]
    let params := agregarSi "Provincia" provincia params
    let params := agregarSi "Municipio" municipio params
    .referencia (CALLEJERO_URL ++ "/Consulta_DNPRC") params
  else if pyTruthy codigo_provincia then
    let params : Params := [("CodigoProvincia", codigo_provincia), ("Numero", numero)]
    let params := agregarSi "CodigoMunicipio" codigo_municipio params
    let params := agregarSi "CodigoVia" codigo_via params
    let params := agregarSi "Bloque" bloque params
    let params := agregarSi "Escalera" escalera params
    let params := agregarSi "Planta" planta params
    let params := agregarSi "Puerta" puerta params
    .codigos (CODIGOS_URL ++ "/Consulta_DNPLOC_Codigos") params
  else if !pyTruthy provincia || !pyTruthy municipio then
    .errorValidacion "Debe proporcionar provincia y municipio, o usar referencia_catastral"
  else
    let params : Params := [("Provincia", provincia), ("Municipio", municipio)]
    let params := agregarSi "Numero" numero params
    let params := agregarSi "TipoVia" tipo_via params
    let params := agregarSi "NombreVia" nombre_via params
    let params := agregarSi "Bloque" bloque params
    let params := agregarSi "Escalera" escalera params
    let params := agregarSi "Planta" planta params
    let params := agregarSi "Puerta" puerta params
    .denominacion (CALLEJERO_URL ++ "/Consulta_DNPLOC") params

/-- C4: the router selects exactly one lookup path per call, in priority
order reference > code > denomination; the denomination path requires
province and municipality to be truthy (non-`None`, non-empty), and when
they are not — and neither a reference nor a province code was given — the
call returns a validation error on which no network dispatch happens. -/
theorem claim_C4
    (provincia municipio tipo_via nombre_via numero bloque escalera planta puerta
     codigo_provincia codigo_municipio codigo_via referencia_catastral : Option String) :
    (pyTruthy referencia_catastral = true →
      ∃ p, construirRuta provincia municipio tipo_via nombre_via numero bloque escalera planta
          puerta codigo_provincia codigo_municipio codigo_via referencia_catastral
        = .referencia (CALLEJERO_URL ++ "/Consulta_DNPRC") p) ∧
    (pyTruthy referencia_catastral = false → pyTruthy codigo_provincia = true →
      ∃ p, construirRuta provincia municipio tipo_via nombre_via numero bloque escalera planta
          puerta codigo_provincia codigo_municipio codigo_via referencia_catastral
        = .codigos (CODIGOS_URL ++ "/Consulta_DNPLOC_Codigos") p) ∧
    (pyTruthy referencia_catastral = false → pyTruthy codigo_provincia = false →
      pyTruthy provincia = true → pyTruthy municipio = true →
      ∃ p, construirRuta provincia municipio tipo_via nombre_via numero bloque escalera planta
          puerta codigo_provincia codigo_municipio codigo_via referencia_catastral
        = .denominacion (CALLEJERO_URL ++ "/Consulta_DNPLOC") p) ∧
    (pyTruthy referencia_catastral = false → pyTruthy codigo_provincia = false →
      (pyTruthy provincia = false ∨ pyTruthy municipio = false) →
      construirRuta provincia municipio tipo_via nombre_via numero bloque escalera planta
          puerta codigo_provincia codigo_municipio codigo_via referencia_catastral
        = .errorValidacion
            "Debe proporcionar provincia y municipio, o usar referencia_catastral" ∧
      llamaRed (construirRuta provincia municipio tipo_via nombre_via numero bloque escalera
          planta puerta codigo_provincia codigo_municipio codigo_via referencia_catastral)
        = false) := by
  refine ⟨?_, ?_, ?_, ?_⟩
  · intro h1
    unfold construirRuta
    rw [h1]
    exact ⟨_, rfl⟩
  · intro h1 h2
    unfold construirRuta
    rw [h1, h2]
    exact ⟨_, rfl⟩
  · intro h1 h2 h3 h4
    unfold construirRuta
    rw [h1, h2, h3, h4]
    exact ⟨_, rfl⟩
  · intro h1 h2 h3
    unfold construirRuta
    rw [h1, h2]
    rcases h3 with h3 | h3 <;> rw [h3] <;> simp [llamaRed]

theorem claim_C4_witness :
    construirRuta none none none none none none none none none none none none none =
      Ruta.errorValidacion
        "Debe proporcionar provincia y municipio, o usar referencia_catastral" ∧
    llamaRed (construirRuta none none none none none none none none none none none none none)
      = false :=
  (claim_C4 none none none none none none none none none none none none none).2.2.2
    rfl rfl (Or.inl rfl)

/-! ## Smart search entry (`buscar_inmueble_inteligente`, lines 385–416)

The operation first runs `int(numero)`; a `ValueError` returns a validation
error before anything else happens.  On success it builds the parameter set
and dispatches the direct lookup. -/

/-- How far `buscar_inmueble_inteligente` gets before its first network
request: either the number-validation error (returned with no request), or
the dispatch of the direct lookup. -/
inductive InicioBusqueda where
  | errorValidacion (mensaje : String)
  | despachar (numeroBuscado : Int) (url : String) (params : Params)
deriving DecidableEq, Repr

/-- The validation message of lines 390–393. -/
def mensajeNumeroInvalido (numero : String) : String :=
  "El número '" ++ numero ++ "' no es válido. Debe ser un número entero."

/-- Whether the smart search reaches its first network dispatch. -/
def despachaRed : InicioBusqueda → Bool
  | .errorValidacion _ => false
  | _ => true

/-- Lines 385–416 of `buscar_inmueble_inteligente`: parse the number, fail
fast on `ValueError`, otherwise build `params` and dispatch
`Consulta_DNPLOC`. -/
def iniciarBusquedaInteligente (provincia municipio nombre_via numero : String)
    (tipo_via escalera planta puerta : Option String) : InicioBusqueda :=
  match pyInt? numero with
  | none => .errorValidacion (mensajeNumeroInvalido numero)
  | some numeroBuscado =>
    let params : Params := [("Provincia", some provincia), ("Municipio", some municipio),
      ("NombreVia", some nombre_via), ("Numero", some (toString numeroBuscado))]
    let params := agregarSi "TipoVia" tipo_via params
    let params := agregarSi "Escalera" escalera params
    let params := agregarSi "Planta" planta params
    let params := agregarSi "Puerta" puerta params
    .despachar numeroBuscado (CALLEJERO_URL ++ "/Consulta_DNPLOC") params

/-- C3 counterexample: the input "-5" does not parse as a *non-negative*
integer (it parses as the negative integer −5), yet the operation does not
return a validation error — it proceeds to dispatch the network request. -/
theorem claim_C3_counterexample :
    pyInt? "-5" = some (-5) ∧ ((-5 : Int) < 0) ∧
    despachaRed (iniciarBusquedaInteligente "Madrid" "Madrid" "Mayor" "-5"
      none none none none) = true := by
  refine ⟨by decide, by decide, ?_⟩
  rfl

/-- C3 amended: for every input whose number argument does not parse as an
integer at all (Python `int` rules: optional sign and digits), the smart
search returns the validation error immediately and dispatches no network
request.  (The code accepts negative integers; the spec's "non-negative"
restriction is not enforced.) -/
theorem claim_C3_amended (provincia municipio nombre_via numero : String)
    (tipo_via escalera planta puerta : Option String)
    (h : pyInt? numero = none) :
    iniciarBusquedaInteligente provincia municipio nombre_via numero
        tipo_via escalera planta puerta
      = .errorValidacion (mensajeNumeroInvalido numero) ∧
    despachaRed (iniciarBusquedaInteligente provincia municipio nombre_via numero
        tipo_via escalera planta puerta) = false := by
  unfold iniciarBusquedaInteligente
  rw [h]
  exact ⟨rfl, rfl⟩

theorem claim_C3_amended_witness :
    iniciarBusquedaInteligente "Madrid" "Madrid" "Mayor" "abc" none none none none
      = .errorValidacion (mensajeNumeroInvalido "abc") ∧
    despachaRed (iniciarBusquedaInteligente "Madrid" "Madrid" "Mayor" "abc"
      none none none none) = false :=
  claim_C3_amended "Madrid" "Madrid" "Mayor" "abc" none none none none (by decide)

/-! ## Candidate extraction for the fallback (lines 489–505) -/

/-- One iteration of the `for nump in consulta_root.findall(".//nump")`
loop: the entry contributes a candidate only when `pnp`, `pc1` and `pc2` are
all found, `pnp.text` is truthy and parses as an `int`, and that integer is
truthy (non-zero); a `ValueError` skips the entry. -/
def candidatoDeNump (nump : XmlElem) : Option Candidato :=
  match nump.findDesc "pnp", nump.findDesc "pc1", nump.findDesc "pc2" with
  | some pnp, some pc1, some pc2 =>
    if pyTruthy pnp.text then
      match pyInt? (pnp.text.getD "") with
      | none => none
      | some v =>
        if v ≠ 0 then some ⟨v, pc1.text.getD "" ++ pc2.text.getD ""⟩ else none
    else none
  | _, _, _ => none

/-- The `numeros_disponibles` list built from the `ConsultaNumero`
response. -/
def extraerNumerosDisponibles (consultaRoot : XmlElem) : List Candidato :=
  (consultaRoot.findAllDesc "nump").filterMap candidatoDeNump

/-! ## Fallback result assembly (lines 507–567)

`numeros_disponibles.sort(...)` mutates the list in place, so the
`numeros_disponibles[:5]` slice reported as alternatives is taken from the
*sorted* list, not the enumeration order. -/

/-- The provenance fields of a successful fallback result: requested and
resolved number, their absolute difference, and the reported
`otros_numeros_disponibles` slice. -/
structure ResultadoCercano where
  numero_buscado : Int
  numero_encontrado : Int
  diferencia : Nat
  otros_numeros_disponibles : List Int
deriving DecidableEq, Repr

/-- Lines 507–567: `None` models the `if numeros_disponibles:` guard
failing (the no-candidates error return); otherwise sort in place, resolve
to the head, and report the provenance fields. -/
def resultadoFallback (numeroBuscado : Int) (cands : List Candidato) :
    Option ResultadoCercano :=
  if cands.isEmpty then none
  else
    match (ordenarPorDiferencia numeroBuscado cands).head? with
    | none => none
    | some cercano =>
      some ⟨numeroBuscado, cercano.numero, (numeroBuscado - cercano.numero).natAbs,
        ((ordenarPorDiferencia numeroBuscado cands).take 5).map (fun c => c.numero)⟩

/-- C5 counterexample: requested number 10 against the enumeration-order
candidates [20, 11, 5].  The code reports alternatives [11, 5, 20] — the
first five numbers of the list *after* the in-place sort by absolute
difference — not the enumeration order [20, 11, 5]; and the slice includes
the resolved number 11 itself, so the reported numbers are not "other"
numbers. -/
theorem claim_C5_counterexample :
    resultadoFallback 10 [⟨20, "a"⟩, ⟨11, "b"⟩, ⟨5, "c"⟩]
      = some ⟨10, 11, 1, [11, 5, 20]⟩ ∧
    ([11, 5, 20] : List Int) ≠ [20, 11, 5] ∧
    (11 : Int) ∈ [(11 : Int), 5, 20] := by
  refine ⟨by decide, by decide, by decide⟩

/-- C5 amended: when the fallback succeeds, the result reports the requested
number, the resolved number (the stable-sort head, i.e. the first candidate
of minimal difference), their absolute difference, and up to five numbers
taken from the candidate list in ascending-absolute-difference order (the
in-place-sorted order, whose head is the resolved number itself), all drawn
from the candidate set. -/
theorem claim_C5_amended (numeroBuscado : Int) (cands : List Candidato)
    (h : cands ≠ []) :
    ∃ r cercano, resultadoFallback numeroBuscado cands = some r ∧
      numeroCercano numeroBuscado cands = some cercano ∧
      r.numero_buscado = numeroBuscado ∧
      r.numero_encontrado = cercano.numero ∧
      r.diferencia = (numeroBuscado - cercano.numero).natAbs ∧
      r.otros_numeros_disponibles
        = ((ordenarPorDiferencia numeroBuscado cands).take 5).map (fun c => c.numero) ∧
      r.otros_numeros_disponibles.length ≤ 5 ∧
      (∀ n ∈ r.otros_numeros_disponibles, ∃ c ∈ cands, c.numero = n) ∧
      r.otros_numeros_disponibles.head? = some cercano.numero := by
  have hne : cands.isEmpty = false := by
    cases cands with
    | nil => exact absurd rfl h
    | cons a as => rfl
  have hperm : List.Perm (ordenarPorDiferencia numeroBuscado cands) cands :=
    List.perm_insertionSort _ _
  cases hord : (ordenarPorDiferencia numeroBuscado cands).head? with
  | none =>
    exfalso
    have hnil : ordenarPorDiferencia numeroBuscado cands = [] := by
      cases hl : ordenarPorDiferencia numeroBuscado cands with
      | nil => rfl
      | cons x xs => rw [hl] at hord; cases hord
    rw [hnil] at hperm
    exact h (List.Perm.nil_eq hperm).symm
  | some cercano =>
    refine ⟨⟨numeroBuscado, cercano.numero, (numeroBuscado - cercano.numero).natAbs,
      ((ordenarPorDiferencia numeroBuscado cands).take 5).map (fun c => c.numero)⟩,
      cercano, ?_, hord, rfl, rfl, rfl, rfl, ?_, ?_, ?_⟩
    · unfold resultadoFallback
      rw [hne, hord]
      simp
    · simp only [List.length_map]
      exact List.length_take_le 5 (ordenarPorDiferencia numeroBuscado cands)
    · intro n hn
      rcases List.mem_map.mp hn with ⟨c, hc, rfl⟩
      exact ⟨c, hperm.mem_iff.mp (List.mem_of_mem_take hc), rfl⟩
    · cases hl : ordenarPorDiferencia numeroBuscado cands with
      | nil => rw [hl] at hord; cases hord
      | cons x xs =>
        rw [hl] at hord
        have hx : x = cercano := by simpa using hord
        subst hx
        simp

theorem claim_C5_amended_witness :
    ∃ r cercano, resultadoFallback 10 [⟨12, "a"⟩, ⟨8, "b"⟩] = some r ∧
      numeroCercano 10 [⟨12, "a"⟩, ⟨8, "b"⟩] = some cercano ∧
      r.numero_buscado = 10 ∧
      r.numero_encontrado = cercano.numero ∧
      r.diferencia = ((10 : Int) - cercano.numero).natAbs ∧
      r.otros_numeros_disponibles
        = ((ordenarPorDiferencia 10 [⟨12, "a"⟩, ⟨8, "b"⟩]).take 5).map (fun c => c.numero) ∧
      r.otros_numeros_disponibles.length ≤ 5 ∧
      (∀ n ∈ r.otros_numeros_disponibles,
        ∃ c ∈ [(⟨12, "a"⟩ : Candidato), ⟨8, "b"⟩], c.numero = n) ∧
      r.otros_numeros_disponibles.head? = some cercano.numero :=
  claim_C5_amended 10 [⟨12, "a"⟩, ⟨8, "b"⟩] (by simp)

/-- C10: an enumerated entry contributes to the fallback's candidate set
only if its number text is truthy and parses as an integer, that integer is
non-zero, and both reference parts `pc1` and `pc2` were found; consequently
every candidate in the set has a non-zero number, and whatever the fallback
selects comes from some enumerated entry satisfying those conditions — a
street number 0, or an entry lacking `pnp`, `pc1` or `pc2`, is never
selected. -/
theorem claim_C10 (root : XmlElem) (nump : XmlElem) (c : Candidato) (t : Int)
    (h : candidatoDeNump nump = some c) :
    ((nump.findDesc "pnp").isSome ∧ (nump.findDesc "pc1").isSome ∧
      (nump.findDesc "pc2").isSome ∧
      ∃ s, textoDe (nump.findDesc "pnp") = some s ∧ s ≠ "" ∧
        pyInt? s = some c.numero ∧ c.numero ≠ 0) ∧
    (∀ c' ∈ extraerNumerosDisponibles root, c'.numero ≠ 0 ∧
      ∃ nmp ∈ root.findAllDesc "nump", candidatoDeNump nmp = some c') ∧
    (∀ sel, numeroCercano t (extraerNumerosDisponibles root) = some sel →
      sel.numero ≠ 0 ∧
      ∃ nmp ∈ root.findAllDesc "nump", candidatoDeNump nmp = some sel) := by
  have hmem : ∀ c' ∈ extraerNumerosDisponibles root, c'.numero ≠ 0 ∧
      ∃ nmp ∈ root.findAllDesc "nump", candidatoDeNump nmp = some c' := by
    intro c' hc'
    rcases List.mem_filterMap.mp hc' with ⟨nmp, hnmp, hcand⟩
    refine ⟨?_, nmp, hnmp, hcand⟩
    cases h1 : nmp.findDesc "pnp" with
    | none => simp [candidatoDeNump, h1] at hcand
    | some pnp =>
      cases h2 : nmp.findDesc "pc1" with
      | none => simp [candidatoDeNump, h1, h2] at hcand
      | some pc1 =>
        cases h3 : nmp.findDesc "pc2" with
        | none => simp [candidatoDeNump, h1, h2, h3] at hcand
        | some pc2 =>
          simp only [candidatoDeNump, h1, h2, h3] at hcand
          by_cases h4 : pyTruthy pnp.text = true
          · rw [if_pos h4] at hcand
            cases h5 : pyInt? (pnp.text.getD "") with
            | none => simp [h5] at hcand
            | some v =>
              simp only [h5] at hcand
              by_cases h6 : v ≠ 0
              · rw [if_pos h6] at hcand
                have hcc : c' = ⟨v, pc1.text.getD "" ++ pc2.text.getD ""⟩ := by
                  simpa using hcand.symm
                rw [hcc]
                exact h6
              · rw [if_neg h6] at hcand; cases hcand
          · rw [if_neg h4] at hcand; cases hcand
  refine ⟨?_, hmem, ?_⟩
  · cases h1 : nump.findDesc "pnp" with
    | none => simp [candidatoDeNump, h1] at h
    | some pnp =>
      cases h2 : nump.findDesc "pc1" with
      | none => simp [candidatoDeNump, h1, h2] at h
      | some pc1 =>
        cases h3 : nump.findDesc "pc2" with
        | none => simp [candidatoDeNump, h1, h2, h3] at h
        | some pc2 =>
          simp only [candidatoDeNump, h1, h2, h3] at h
          by_cases h4 : pyTruthy pnp.text = true
          · rw [if_pos h4] at h
            cases h5 : pyInt? (pnp.text.getD "") with
            | none => simp [h5] at h
            | some v =>
              simp only [h5] at h
              by_cases h6 : v ≠ 0
              · rw [if_pos h6] at h
                have hc : (⟨v, pc1.text.getD "" ++ pc2.text.getD ""⟩ : Candidato) = c := by
                  simpa using h
                have htext : ∃ s, pnp.text = some s ∧ s ≠ "" := by
                  cases ht : pnp.text with
                  | none => rw [ht] at h4; exact absurd h4 (by simp [pyTruthy])
                  | some s =>
                    rw [ht] at h4
                    refine ⟨s, rfl, ?_⟩
                    simpa [pyTruthy] using h4
                rcases htext with ⟨s, hs, hsne⟩
                refine ⟨by simp, by simp, by simp, s, ?_, hsne, ?_, ?_⟩
                · simp [textoDe, h1, hs]
                · rw [← hc]
                  simpa [hs] using h5
                · rw [← hc]
                  simpa using h6
              · rw [if_neg h6] at h; cases h
          · rw [if_neg h4] at h; cases h
  · intro sel hsel
    have hpm : numeroCercano t (extraerNumerosDisponibles root)
        = primeroMinimo (claveDiferencia t) (extraerNumerosDisponibles root) := by
      unfold numeroCercano ordenarPorDiferencia
      exact head_insertionSort_eq_primeroMinimo (claveDiferencia t) _
    rw [hpm] at hsel
    exact hmem sel (primeroMinimo_mem _ hsel)

/-! ## Record extractors (`parse_inmueble_completo`, lines 71–240, and
`parse_inmueble_listado`, lines 243–297) -/

/-- `x.text if x is not None else None` serialised: a missing element or a
missing text both become `null`. -/
def jDeTexto : Option String → JVal
  | none => .null
  | some s => .s s

/-- The float slot produced by the `try: float(...) except ValueError: None`
pattern: an unparseable text stores an explicit `null`. -/
def jDeFloat : Option PyFloat → JVal
  | none => .null
  | some f => .f f

/-- `ref_completa += x.text` guarded by `x is not None and x.text`. -/
def anexarSiTexto (t : Option (Option String)) (ref : String) : String :=
  match t with
  | some tx => if pyTruthy tx then ref ++ tx.getD "" else ref
  | none => ref

/-- The reference assembly of the full-record extractor (lines 76–94):
each argument is the result of `rc.find(...)` mapped to its text (outer
`Option` = element presence, inner = text).  Both parcel parts must be
present, else the reference stays `""`; `car`, `cc1`, `cc2` are appended in
that order when present with truthy text. -/
def armarReferencia (pc1 pc2 car cc1 cc2 : Option (Option String)) : String :=
  match pc1, pc2 with
  | some t1, some t2 =>
    anexarSiTexto cc2 (anexarSiTexto cc1 (anexarSiTexto car (t1.getD "" ++ t2.getD "")))
  | _, _ => ""

/-- The reference assembly of the listing extractor (lines 248–260): same
shape but only the `car` suffix. -/
def armarReferenciaListado (pc1 pc2 car : Option (Option String)) : String :=
  match pc1, pc2 with
  | some t1, some t2 => anexarSiTexto car (t1.getD "" ++ t2.getD "")
  | _, _ => ""

/-- The `referencia_catastral` entry (always set once `rc` was found). -/
def rcDict (e : XmlElem) : Dict :=
  match e.findDesc "rc" with
  | none => []
  | some rc =>
    [("referencia_catastral", JVal.s (armarReferencia
      ((rc.findChild "pc1").map XmlElem.text) ((rc.findChild "pc2").map XmlElem.text)
      ((rc.findChild "car").map XmlElem.text) ((rc.findChild "cc1").map XmlElem.text)
      ((rc.findChild "cc2").map XmlElem.text)))]

/-- Listing variant of the reference entry. -/
def rcDictListado (e : XmlElem) : Dict :=
  match e.findDesc "rc" with
  | none => []
  | some rc =>
    [("referencia_catastral", JVal.s (armarReferenciaListado
      ((rc.findChild "pc1").map XmlElem.text) ((rc.findChild "pc2").map XmlElem.text)
      ((rc.findChild "car").map XmlElem.text)))]

/-- The `tipo` entry (lines 97–99). -/
def cnDict (e : XmlElem) : Dict :=
  match e.findDesc "cn" with
  | none => []
  | some cn => [("tipo", jDeTexto cn.text)]

/-- One optional component of `direccion_partes` (appended only when found
with truthy text). -/
def texOpcional (o : Option XmlElem) : List String :=
  if tieneTexto o then [(textoDe o).getD ""] else []

/-- The tax-address block shared by both extractors (lines 102–134 and
263–295): `direccion` from `[tv, nv, pnp]` joined by single spaces (or
`null` when no part is present), `provincia`/`municipio`, and the
`localizacion_interna` sub-dict present only when at least one of
`bq`/`es`/`pt`/`pu` has truthy text. -/
def dtDict (e : XmlElem) : Dict :=
  match e.findDesc "dt" with
  | none => []
  | some dt =>
    let partes : List String :=
      texOpcional (dt.findDesc "tv") ++ texOpcional (dt.findDesc "nv")
        ++ texOpcional (dt.findDesc "pnp")
    let direccion : JVal :=
      if partes.isEmpty then .null else .s (String.intercalate " " partes)
    let locPart : Dict :=
      if tieneTexto (dt.findDesc "bq") || tieneTexto (dt.findDesc "es")
          || tieneTexto (dt.findDesc "pt") || tieneTexto (dt.findDesc "pu") then
        [("localizacion_interna", JVal.obj
          [("bloque", jDeTexto (textoDe (dt.findDesc "bq"))),
           ("escalera", jDeTexto (textoDe (dt.findDesc "es"))),
           ("planta", jDeTexto (textoDe (dt.findDesc "pt"))),
           ("puerta", jDeTexto (textoDe (dt.findDesc "pu")))])]
      else []
    ("direccion", direccion) :: ("provincia", jDeTexto (textoDe (dt.findDesc "np")))
      :: ("municipio", jDeTexto (textoDe (dt.findDesc "nm"))) :: locPart

/-- The `domicilio_completo` entry (lines 137–139). -/
def ldtDict (e : XmlElem) : Dict :=
  if tieneTexto (e.findDesc "ldt") then
    [("domicilio_completo", JVal.s ((textoDe (e.findDesc "ldt")).getD ""))]
  else []

/-- A comma-decimal field set only when the element has truthy text; a
parse failure stores an explicit `null` (lines 151–163 and the analogous
unit/sub-parcel fields). -/
def campoDecimal (clave : String) (o : Option XmlElem) : Dict :=
  if tieneTexto o then [(clave, jDeFloat (normalizarDecimal ((textoDe o).getD "")))]
  else []

/-- The economic block (lines 142–165).  `antiguedad` uses a *bare*
`int(ant.text)`: an unparseable text raises an uncaught `ValueError`,
modelled as `none` for the whole extraction. -/
def debiDict (e : XmlElem) : Option Dict :=
  match e.findDesc "debi" with
  | none => some []
  | some debi =>
    let antPart : Option Dict :=
      if tieneTexto (debi.findChild "ant") then
        match pyInt? ((textoDe (debi.findChild "ant")).getD "") with
        | none => none
        | some n => some [("antiguedad", JVal.i n)]
      else some [("antiguedad", JVal.null)]
    match antPart with
    | none => none
    | some ap =>
      some (("uso", jDeTexto (textoDe (debi.findChild "luso")))
        :: (campoDecimal "superficie_m2" (debi.findChild "sfc")
            ++ campoDecimal "coef_participacion" (debi.findChild "cpt") ++ ap))

/-- One construction unit (lines 171–203): key order `uso`,
`superficie_m2`, `tipologia`, `localizacion`. -/
def consDict (cons : XmlElem) : Dict :=
  (match cons.findDesc "lcd" with
   | none => []
   | some lcd => [("uso", jDeTexto lcd.text)])
  ++ campoDecimal "superficie_m2" (cons.findDesc "stl")
  ++ (match cons.findDesc "dtip" with
      | none => []
      | some dtip => [("tipologia", jDeTexto dtip.text)])
  ++ (match cons.findDesc "loint" with
      | none => []
      | some loint =>
        [("localizacion", JVal.obj
          [("bloque", jDeTexto (textoDe (loint.findChild "bq"))),
           ("escalera", jDeTexto (textoDe (loint.findChild "es"))),
           ("planta", jDeTexto (textoDe (loint.findChild "pt"))),
           ("puerta", jDeTexto (textoDe (loint.findChild "pu")))])])

/-- The construction-unit list (lines 168–206): an entirely empty unit is
dropped, and the key is set only when at least one unit remains. -/
def lconsDict (e : XmlElem) : Dict :=
  match e.findDesc "lcons" with
  | none => []
  | some lcons =>
    let unidades := ((lcons.findAllDesc "cons").map consDict).filter (fun d => !d.isEmpty)
    if unidades.isEmpty then []
    else [("unidades_constructivas", JVal.arr (unidades.map JVal.obj))]

/-- One sub-parcel (lines 212–235). -/
def sprDict (spr : XmlElem) : Dict :=
  (match spr.findChild "cspr" with
   | none => []
   | some cspr => [("codigo", jDeTexto cspr.text)])
  ++ (match spr.findDesc "ccc" with
      | none => []
      | some ccc => [("calificacion", jDeTexto ccc.text)])
  ++ (match spr.findDesc "dcc" with
      | none => []
      | some dcc => [("cultivo", jDeTexto dcc.text)])
  ++ (match spr.findDesc "ip" with
      | none => []
      | some ip => [("intensidad_productiva", jDeTexto ip.text)])
  ++ campoDecimal "superficie_m2" (spr.findDesc "ssp")

/-- The sub-parcel list (lines 209–238). -/
def lsprDict (e : XmlElem) : Dict :=
  match e.findDesc "lspr" with
  | none => []
  | some lspr =>
    let subparcelas := ((lspr.findAllDesc "spr").map sprDict).filter (fun d => !d.isEmpty)
    if subparcelas.isEmpty then []
    else [("subparcelas", JVal.arr (subparcelas.map JVal.obj))]

/-- `parse_inmueble_completo` (lines 71–240), with the dict keys in the
source's insertion order.  `none` models the uncaught `ValueError` of the
bare `int(ant.text)`. -/
def parse_inmueble_completo (bi : XmlElem) : Option Dict :=
  match debiDict bi with
  | none => none
  | some dp =>
    some (rcDict bi ++ cnDict bi ++ dtDict bi ++ ldtDict bi ++ dp
      ++ lconsDict bi ++ lsprDict bi)

/-- `parse_inmueble_listado` (lines 243–297): reference (without check
digits beyond `car`) plus the shared tax-address block. -/
def parse_inmueble_listado (rcdnp : XmlElem) : Dict :=
  rcDictListado rcdnp ++ dtDict rcdnp

/-- C6: the full-record extractor's cadastral reference concatenates `pc1`,
`pc2`, then the optional `car`, `cc1`, `cc2` in that fixed order:
`pc1="1234567"`, `pc2="89"` with no car/cc1/cc2 gives `"123456789"`, and a
missing `pc1` or `pc2` element yields the empty reference rather than a
partial one. -/
theorem claim_C6 :
    armarReferencia (some (some "1234567")) (some (some "89")) none none none
      = "123456789" ∧
    (∀ pc2 car cc1 cc2, armarReferencia none pc2 car cc1 cc2 = "") ∧
    (∀ pc1 car cc1 cc2, armarReferencia pc1 none car cc1 cc2 = "") ∧
    (∀ a b c d e : String, c ≠ "" → d ≠ "" → e ≠ "" →
      armarReferencia (some (some a)) (some (some b)) (some (some c)) (some (some d))
        (some (some e)) = a ++ b ++ c ++ d ++ e) := by
  refine ⟨by decide, fun pc2 car cc1 cc2 => rfl, ?_, ?_⟩
  · intro pc1 car cc1 cc2
    cases pc1 <;> rfl
  · intro a b c d e hc hd he
    simp [armarReferencia, anexarSiTexto, pyTruthy, hc, hd, he, String.append_assoc]

theorem claim_C6_witness :
    armarReferencia (some (some "1234567")) (some (some "89")) (some (some "0001"))
      (some (some "K")) (some (some "Z")) = "1234567" ++ "89" ++ "0001" ++ "K" ++ "Z" :=
  claim_C6.2.2.2 "1234567" "89" "0001" "K" "Z" (by decide) (by decide) (by decide)

/-- C7: the shared comma-decimal normalisation maps `"45,5"` to the exact
value 45.5, while an unparseable `"abc"` yields an absent value (the field
slot stores an explicit `null`) with no exception — the extractor's decimal
field is total. -/
theorem claim_C7 :
    (∃ d, normalizarDecimal "45,5" = some (PyFloat.finite d) ∧ DecRepr.val d = 45.5) ∧
    normalizarDecimal "abc" = none ∧
    campoDecimal "superficie_m2" (some (XmlElem.mk "sfc" (some "45,5") []))
      = [("superficie_m2", JVal.f (PyFloat.finite ⟨false, 45, 5, 1, 0⟩))] ∧
    campoDecimal "superficie_m2" (some (XmlElem.mk "sfc" (some "abc") []))
      = [("superficie_m2", JVal.null)] := by
  refine ⟨⟨⟨false, 45, 5, 1, 0⟩, by decide, ?_⟩, by decide, rfl, rfl⟩
  norm_num [DecRepr.val]

/-! ## Round-trip check on a synthetic success record (C9) -/

mutual

/-- No `null` appears anywhere in the serialised value. -/
def sinNulos : JVal → Bool
  | .null => false
  | .obj fs => sinNulosD fs
  | .arr xs => sinNulosL xs
  | .s _ => true
  | .i _ => true
  | .f _ => true
  | .b _ => true

def sinNulosD : List (String × JVal) → Bool
  | [] => true
  | (_, v) :: fs => sinNulos v && sinNulosD fs

def sinNulosL : List JVal → Bool
  | [] => true
  | v :: vs => sinNulos v && sinNulosL vs

end

/-- A synthetic fully-populated success record (one `bi` element), shaped
like a `Consulta_DNPRC` response body after namespace stripping. -/
def biSintetico : XmlElem :=
  .mk "bi" none
    [.mk "idbi" none [.mk "rc" none
       [.mk "pc1" (some "1234567") [], .mk "pc2" (some "89") [],
        .mk "car" (some "0001") [], .mk "cc1" (some "K") [], .mk "cc2" (some "Z") []]],
     .mk "cn" (some "UR") [],
     .mk "dt" none
       [.mk "np" (some "MADRID") [],
        .mk "nm" (some "MADRID") [],
        .mk "locs" none [.mk "lous" none [.mk "lourb" none
          [.mk "dir" none
            [.mk "tv" (some "CL") [], .mk "nv" (some "MAYOR") [], .mk "pnp" (some "5") []],
           .mk "loint" none
            [.mk "bq" (some "1") [], .mk "es" (some "A") [],
             .mk "pt" (some "02") [], .mk "pu" (some "B") []]]]]],
     .mk "ldt" (some "CL MAYOR 5 MADRID") [],
     .mk "debi" none
       [.mk "luso" (some "Residencial") [], .mk "sfc" (some "120,5") [],
        .mk "cpt" (some "2,5") [], .mk "ant" (some "1990") []],
     .mk "lcons" none
       [.mk "cons" none
         [.mk "lcd" (some "VIVIENDA") [], .mk "stl" (some "95,5") [],
          .mk "dtip" (some "V") [],
          .mk "loint" none
            [.mk "bq" (some "1") [], .mk "es" (some "A") [],
             .mk "pt" (some "02") [], .mk "pu" (some "B") []]]],
     .mk "lspr" none
       [.mk "spr" none
         [.mk "cspr" (some "a") [],
          .mk "dspr" none
            [.mk "ccc" (some "C") [], .mk "dcc" (some "Labor") [],
             .mk "ip" (some "02") [], .mk "ssp" (some "500") []]]]]

/-- The dict the extractor produces for `biSintetico`: every populated field
present, in insertion order, with no `null` anywhere. -/
def dictEsperado : Dict :=
  [("referencia_catastral", .s "1234567890001KZ"),
   ("tipo", .s "UR"),
   ("direccion", .s "CL MAYOR 5"),
   ("provincia", .s "MADRID"),
   ("municipio", .s "MADRID"),
   ("localizacion_interna", .obj
     [("bloque", .s "1"), ("escalera", .s "A"), ("planta", .s "02"), ("puerta", .s "B")]),
   ("domicilio_completo", .s "CL MAYOR 5 MADRID"),
   ("uso", .s "Residencial"),
   ("superficie_m2", .f (.finite ⟨false, 120, 5, 1, 0⟩)),
   ("coef_participacion", .f (.finite ⟨false, 2, 5, 1, 0⟩)),
   ("antiguedad", .i 1990),
   ("unidades_constructivas", .arr
     [.obj [("uso", .s "VIVIENDA"),
            ("superficie_m2", .f (.finite ⟨false, 95, 5, 1, 0⟩)),
            ("tipologia", .s "V"),
            ("localizacion", .obj
              [("bloque", .s "1"), ("escalera", .s "A"),
               ("planta", .s "02"), ("puerta", .s "B")])]]),
   ("subparcelas", .arr
     [.obj [("codigo", .s "a"), ("calificacion", .s "C"), ("cultivo", .s "Labor"),
            ("intensidad_productiva", .s "02"),
            ("superficie_m2", .f (.finite ⟨false, 500, 0, 0, 0⟩))]])]

/-- A synthetic record with only the parcel reference populated: every
absent section must be omitted from the output. -/
def biMinimo : XmlElem :=
  .mk "bi" none [.mk "rc" none [.mk "pc1" (some "A") [], .mk "pc2" (some "B") []]]

/-- C9: feeding the synthetic fully-populated success record through the
full-record extractor preserves every populated field in insertion order
with no null-valued noise field, and the minimal record keeps only its one
populated field, omitting every absent one. -/
theorem claim_C9 :
    parse_inmueble_completo biSintetico = some dictEsperado ∧
    sinNulosD dictEsperado = true ∧
    parse_inmueble_completo biMinimo = some [("referencia_catastral", JVal.s "AB")] := by
  exact ⟨rfl, rfl, rfl⟩

/-- A synthetic well-formed enumeration entry: number 7, reference parts
"A" and "B". -/
def numpW : XmlElem :=
  .mk "nump" none [.mk "pnp" (some "7") [], .mk "pc1" (some "A") [], .mk "pc2" (some "B") []]

/-- A synthetic `ConsultaNumero` response holding a zero-numbered entry, the
well-formed entry, and an entry without reference parts. -/
def rootW : XmlElem :=
  .mk "consulta" none
    [.mk "nump" none
       [.mk "pnp" (some "0") [], .mk "pc1" (some "X") [], .mk "pc2" (some "Y") []],
     numpW,
     .mk "nump" none [.mk "pnp" (some "9") []]]

theorem claim_C10_witness :
    ((numpW.findDesc "pnp").isSome ∧ (numpW.findDesc "pc1").isSome ∧
      (numpW.findDesc "pc2").isSome ∧
      ∃ s, textoDe (numpW.findDesc "pnp") = some s ∧ s ≠ "" ∧
        pyInt? s = some 7 ∧ (7 : Int) ≠ 0) ∧
    (∀ c' ∈ extraerNumerosDisponibles rootW, c'.numero ≠ 0 ∧
      ∃ nmp ∈ rootW.findAllDesc "nump", candidatoDeNump nmp = some c') ∧
    (∀ sel, numeroCercano 10 (extraerNumerosDisponibles rootW) = some sel →
      sel.numero ≠ 0 ∧
      ∃ nmp ∈ rootW.findAllDesc "nump", candidatoDeNump nmp = some sel) :=
  claim_C10 rootW numpW ⟨7, "AB"⟩ 10 rfl

end Catastro
